import Mathlib

/-!
Shallow embedding of the Task-Reviewer-Agent core (src/agent.py).

The repository is a FastAPI service backed by MongoDB whose core is a
review-lifecycle workflow: task creation, review creation via two model
calls, admin feedback aggregation, and gated next-task generation.

Modelling conventions:
* The document store (two Mongo collections) is a `Store` holding the two
  collections as lists in insertion order; `find_one` is `List.find?` and
  `update_one` with a single-field filter and `$set` is `update_first`.
* External model-service invocations (LangChain chains) are oracles passed
  as `Option` parameters: `some x` is a call that returned `x`; `none` is a
  call that raised.  Freshly generated `ObjectId` review ids are a `String`
  parameter; their global uniqueness (a property of ObjectId generation,
  not of this code) appears as a hypothesis where a claim needs it.
* `HTTPException(status_code=c)` raise sites become `AgentError` values
  carrying their status code via `AgentError.statusCode`; an operation
  returns the (possibly updated) store together with `Except AgentError r`,
  so "raises without writing" is the store component staying unchanged.
* Mongo `_id` bookkeeping and the wall-clock `timestamp` field on
  `ReviewHistory` are omitted: no claim reads them.
-/

namespace TaskReviewer

/-- Task document (pydantic model `Task`): caller-assigned id, title, description. -/
structure Task where
  task_id : String
  title : String
  description : String
deriving DecidableEq, Repr

/-- Pydantic model `DHIScores`: three integer fields, each declared `ge=1, le=10`. -/
structure DHIScores where
  dignity : Int
  honesty : Int
  integrity : Int
deriving DecidableEq, Repr

/-- The bound pydantic enforces on `DHIScores` (`Field(..., ge=1, le=10)` on each). -/
def validDHI (d : DHIScores) : Prop :=
  1 ≤ d.dignity ∧ d.dignity ≤ 10 ∧ 1 ≤ d.honesty ∧ d.honesty ≤ 10 ∧
    1 ≤ d.integrity ∧ d.integrity ≤ 10

instance (d : DHIScores) : Decidable (validDHI d) := by
  unfold validDHI; infer_instance

/-- Pydantic model `ReviewData`: structured model output for a review. -/
structure ReviewData where
  task_id : String
  score : Int
  done_well : List String
  missing : List String
  submission_summary : String
  dhi_scores : Option DHIScores := none
  overall_score : Option ℚ := none
deriving DecidableEq, Repr

/-- Pydantic model `NextTask`. -/
structure NextTask where
  title : String
  objectives : List String
  deliverables : String
deriving DecidableEq, Repr

/-- Pydantic model `ReviewHistory`: the stored review record. -/
structure ReviewHistory where
  review_id : String
  username : String
  task_id : String
  review_data : ReviewData
  feedback_note : String
  next_task : NextTask
  feedback_sentiment : Option String := none
  dhi_scores : Option DHIScores := none
  overall_score : Option ℚ := none
  status : String := "pending_feedback"
deriving DecidableEq, Repr

/-- Pydantic model `Feedback`: admin sentiment plus DHI scores. -/
structure Feedback where
  sentiment : String
  dhi_scores : DHIScores
deriving DecidableEq, Repr

/-- The two Mongo collections (`tasks_collection`, `reviews_collection`),
in insertion order. -/
structure Store where
  tasks : List Task
  reviews : List ReviewHistory
deriving DecidableEq, Repr

/-- Error taxonomy: one constructor per `HTTPException` raise site of the core
(the model-failure case of `generate_next_task` is an uncaught exception,
surfaced by FastAPI as a 500, folded into `modelInvocationError`). -/
inductive AgentError where
  | taskNotFound
  | modelInvocationError
  | reviewNotFound
  | lockedError
  | duplicateTask
  | decodeError
  | fetchError
  | validationError
deriving DecidableEq, Repr

/-- Status code of each raise site (`validationError` is pydantic request
validation, which FastAPI reports as 422 Unprocessable Entity). -/
def AgentError.statusCode : AgentError → Nat
  | .taskNotFound => 404
  | .modelInvocationError => 500
  | .reviewNotFound => 404
  | .lockedError => 423
  | .duplicateTask => 400
  | .decodeError => 400
  | .fetchError => 400
  | .validationError => 422

/-- Mongo `update_one({"review_id": rid}, {"$set": ...})`: rewrite the first
record matching the filter, leave the rest untouched. -/
def update_first (rid : String) (f : ReviewHistory → ReviewHistory) :
    List ReviewHistory → List ReviewHistory
  | [] => []
  | r :: rs => if r.review_id == rid then f r :: rs else r :: update_first rid f rs

/-- Python `round(x, 2)` on the values this program produces.  The program
only rounds `np.mean` of four integers, and `(sum / 4) * 100 = sum * 25` is
an integer, so every float involved is exact and every tie-breaking
convention agrees; we use Mathlib `round`. -/
def round2 (q : ℚ) : ℚ := ((round (q * 100) : ℤ) : ℚ) / 100

/-- Python `str.replace(pat, rep)` on character lists: scan left to right,
replacing each non-overlapping occurrence of `pat` (taken non-empty, as at
both call sites) by `rep`.  Fuel-indexed so the recursion is structural;
`replaceAll` supplies fuel equal to the input length, which the scan never
exhausts (each step consumes at least one input character). -/
def replaceAllAux (pat rep : List Char) : Nat → List Char → List Char
  | _, [] => []
  | 0, s => s
  | fuel + 1, c :: rest =>
    if pat ≠ [] ∧ pat.isPrefixOf (c :: rest) then
      rep ++ replaceAllAux pat rep fuel ((c :: rest).drop pat.length)
    else
      c :: replaceAllAux pat rep fuel rest

/-- Python `str.replace(pat, rep)` on character lists (see `replaceAllAux`). -/
def replaceAll (pat rep s : List Char) : List Char :=
  replaceAllAux pat rep s.length s

/-- Python `str.replace` lifted to `String`. -/
def pyReplace (s pat rep : String) : String :=
  String.mk (replaceAll pat.toList rep.toList s.toList)

/-- Does `pat` occur as a contiguous substring? -/
def hasSubstr (pat : List Char) : List Char → Bool
  | [] => pat.isEmpty
  | c :: rest => pat.isPrefixOf (c :: rest) || hasSubstr pat rest

/-- Strict UTF-8 decoding of a byte sequence to code points, as Python
`bytes.decode("utf-8")`: rejects stray continuation bytes, overlong forms,
surrogates (lead `0xED` with second byte above `0x9F`) and values above
`U+10FFFF` (lead above `0xF4`). -/
def utf8DecodeAux : List Nat → Option (List Nat)
  | [] => some []
  | b0 :: rest =>
    if b0 ≤ 0x7F then
      (utf8DecodeAux rest).map (b0 :: ·)
    else if 0xC2 ≤ b0 ∧ b0 ≤ 0xDF then
      match rest with
      | b1 :: rest2 =>
        if 0x80 ≤ b1 ∧ b1 ≤ 0xBF then
          (utf8DecodeAux rest2).map (((b0 - 0xC0) * 0x40 + (b1 - 0x80)) :: ·)
        else none
      | [] => none
    else if 0xE0 ≤ b0 ∧ b0 ≤ 0xEF then
      match rest with
      | b1 :: b2 :: rest3 =>
        let lo1 := if b0 = 0xE0 then 0xA0 else 0x80
        let hi1 := if b0 = 0xED then 0x9F else 0xBF
        if lo1 ≤ b1 ∧ b1 ≤ hi1 ∧ 0x80 ≤ b2 ∧ b2 ≤ 0xBF then
          (utf8DecodeAux rest3).map
            (((b0 - 0xE0) * 0x1000 + (b1 - 0x80) * 0x40 + (b2 - 0x80)) :: ·)
        else none
      | _ => none
    else if 0xF0 ≤ b0 ∧ b0 ≤ 0xF4 then
      match rest with
      | b1 :: b2 :: b3 :: rest4 =>
        let lo1 := if b0 = 0xF0 then 0x90 else 0x80
        let hi1 := if b0 = 0xF4 then 0x8F else 0xBF
        if lo1 ≤ b1 ∧ b1 ≤ hi1 ∧ 0x80 ≤ b2 ∧ b2 ≤ 0xBF ∧ 0x80 ≤ b3 ∧ b3 ≤ 0xBF then
          (utf8DecodeAux rest4).map
            (((b0 - 0xF0) * 0x40000 + (b1 - 0x80) * 0x1000 + (b2 - 0x80) * 0x40 +
              (b3 - 0x80)) :: ·)
        else none
      | _ => none
    else none

/-- UTF-8 decoding producing a `String` (the decoder above never emits a
surrogate or a value above `U+10FFFF`, so `Char.ofNat` is exact). -/
def utf8DecodeString (bytes : List Nat) : Option String :=
  (utf8DecodeAux bytes).map (fun cps => String.mk (cps.map Char.ofNat))

/-- Endpoint `create_task`: reject a duplicate `task_id` with a 400,
otherwise insert the task document and return its id. -/
def create_task (st : Store) (task : Task) : Store × Except AgentError String :=
  if (st.tasks.find? (fun t => t.task_id == task.task_id)).isSome then
    (st, .error .duplicateTask)
  else
    ({ st with tasks := st.tasks ++ [task] }, .ok task.task_id)

/-- Core review creation (`_run_review_and_note_logic`): task lookup, the two
model calls (review chain, then note chain, a shared try block mapping any
model exception to a 500), then construction and single insert of the new
`ReviewHistory` record.  `reviewRes` and `noteRes` are the outcomes of the two
model invocations; `fresh_id` is the generated `str(ObjectId())`. -/
def run_review_and_note_logic (st : Store) (task_id submission_text username : String)
    (reviewRes : Option ReviewData) (noteRes : Option String) (fresh_id : String) :
    Store × Except AgentError ReviewHistory :=
  match st.tasks.find? (fun t => t.task_id == task_id) with
  | none => (st, .error .taskNotFound)
  | some _task =>
    match reviewRes with
    | none => (st, .error .modelInvocationError)
    | some review_data =>
      match noteRes with
      | none => (st, .error .modelInvocationError)
      | some note =>
        let history_record : ReviewHistory :=
          { review_id := fresh_id
            username := username
            task_id := task_id
            review_data := review_data
            feedback_note := note
            next_task := { title := "", objectives := [], deliverables := "" }
            feedback_sentiment := none
            dhi_scores := none
            overall_score := none
            status := "pending_feedback" }
        ({ st with reviews := st.reviews ++ [history_record] }, .ok history_record)

/-- Endpoint `full_review_workflow_text`: raw text passes through unchanged. -/
def full_review_workflow_text (st : Store) (task_id username submission_text : String)
    (reviewRes : Option ReviewData) (noteRes : Option String) (fresh_id : String) :
    Store × Except AgentError ReviewHistory :=
  run_review_and_note_logic st task_id submission_text username reviewRes noteRes fresh_id

/-- Endpoint `full_review_workflow_file`: read the uploaded bytes and decode
them as UTF-8; any failure is a 400 raised before the core logic runs. -/
def full_review_workflow_file (st : Store) (task_id username : String)
    (content_bytes : List Nat) (reviewRes : Option ReviewData) (noteRes : Option String)
    (fresh_id : String) : Store × Except AgentError ReviewHistory :=
  match utf8DecodeString content_bytes with
  | none => (st, .error .decodeError)
  | some submission_text =>
    run_review_and_note_logic st task_id submission_text username reviewRes noteRes fresh_id

/-- The URL rewrite of `full_review_workflow_link` (src/agent.py line 236):
`submission_link.replace("github.com", "raw.githubusercontent.com")
.replace("/blob/", "/")`, applied to every submitted link. -/
def resolve_link (submission_link : String) : String :=
  pyReplace (pyReplace submission_link "github.com" "raw.githubusercontent.com")
    "/blob/" "/"

/-- Endpoint `full_review_workflow_link`: rewrite the link, fetch it
(`fetchRes` is the outcome of the single GET of the rewritten URL; `none`
covers transport failure and non-2xx via `raise_for_status`), then run the
core logic on the fetched body. -/
def full_review_workflow_link (st : Store) (task_id username : String)
    (submission_link : String) (fetchRes : String → Option String)
    (reviewRes : Option ReviewData) (noteRes : Option String) (fresh_id : String) :
    Store × Except AgentError ReviewHistory :=
  match fetchRes (resolve_link submission_link) with
  | none => (st, .error .fetchError)
  | some submission_text =>
    run_review_and_note_logic st task_id submission_text username reviewRes noteRes fresh_id

/-- The `update_data` dict of `provide_feedback`, as the effect of
`$set`-ting its four fields on a stored record. -/
def apply_feedback_update (feedback : Feedback) (overall_score : ℚ)
    (r : ReviewHistory) : ReviewHistory :=
  { r with
    feedback_sentiment := some feedback.sentiment
    dhi_scores := some feedback.dhi_scores
    overall_score := some overall_score
    status := "feedback_provided" }

/-- The `$set` payload of `generate_next_task`: replace `next_task`. -/
def apply_next_task_update (next_task : NextTask) (r : ReviewHistory) : ReviewHistory :=
  { r with next_task := next_task }

/-- Endpoint `provide_feedback` (the spec calls it `record_feedback`): pydantic bounds check on
`DHIScores` (rejected at the request boundary, before the handler touches the
store), lookup, `np.mean` of the stored model score with the three DHI
scores, then a single `$set` update and a re-read of the updated record. -/
def provide_feedback (st : Store) (review_id : String) (feedback : Feedback) :
    Store × Except AgentError ReviewHistory :=
  if validDHI feedback.dhi_scores then
    match st.reviews.find? (fun r => r.review_id == review_id) with
    | none => (st, .error .reviewNotFound)
    | some review_record =>
      let ai_score := review_record.review_data.score
      let dhi := feedback.dhi_scores
      let overall_score : ℚ :=
        round2 (((ai_score + dhi.dignity + dhi.honesty + dhi.integrity : ℤ) : ℚ) / 4)
      let reviews1 :=
        update_first review_id (apply_feedback_update feedback overall_score) st.reviews
      let st1 : Store := { st with reviews := reviews1 }
      match reviews1.find? (fun r => r.review_id == review_id) with
      | none => (st1, .error .reviewNotFound)
      | some updated_record => (st1, .ok updated_record)
  else (st, .error .validationError)

/-- Endpoint `generate_next_task` (the spec calls it `run_next_task`): lookup, the
`status != "feedback_provided"` guard (423), the next-task model call
(`nextTaskRes`; its failure is an uncaught exception, surfaced as a 500,
raised before any write), then a single `$set` of `next_task` and a re-read
of the updated record. -/
def generate_next_task (st : Store) (review_id : String) (nextTaskRes : Option NextTask) :
    Store × Except AgentError ReviewHistory :=
  match st.reviews.find? (fun r => r.review_id == review_id) with
  | none => (st, .error .reviewNotFound)
  | some review_record =>
    if review_record.status ≠ "feedback_provided" then (st, .error .lockedError)
    else
      match nextTaskRes with
      | none => (st, .error .modelInvocationError)
      | some next_task =>
        let reviews1 := update_first review_id (apply_next_task_update next_task) st.reviews
        let st1 : Store := { st with reviews := reviews1 }
        match reviews1.find? (fun r => r.review_id == review_id) with
        | none => (st1, .error .reviewNotFound)
        | some updated_record => (st1, .ok updated_record)

/-! ### Concrete fixtures used by the witness theorems -/

/-- Fixture: a task definition. -/
def sampleTask : Task := { task_id := "t1", title := "T", description := "D" }

/-- Fixture: a structured model review with technical score 7. -/
def sampleReviewData : ReviewData :=
  { task_id := "t1", score := 7, done_well := [], missing := [],
    submission_summary := "s" }

/-- Fixture: a stored review record still awaiting feedback. -/
def samplePending : ReviewHistory :=
  { review_id := "r1", username := "alice", task_id := "t1",
    review_data := sampleReviewData, feedback_note := "note",
    next_task := { title := "", objectives := [], deliverables := "" } }

/-- Fixture: a stored review record whose feedback has been provided. -/
def sampleProvided : ReviewHistory :=
  { samplePending with
    feedback_sentiment := some "up"
    status := "feedback_provided" }

/-- Fixture: a store holding one pending review. -/
def sampleStoreP : Store := { tasks := [sampleTask], reviews := [samplePending] }

/-- Fixture: a store holding one feedback-provided review. -/
def sampleStoreF : Store := { tasks := [sampleTask], reviews := [sampleProvided] }

/-- Fixture: admin feedback with DHI scores 8, 9, 10. -/
def sampleFeedback : Feedback := { sentiment := "up", dhi_scores := ⟨8, 9, 10⟩ }

/-- Fixture: a generated follow-up task. -/
def sampleNextTask : NextTask :=
  { title := "T2", objectives := ["o"], deliverables := "d" }

/-! ### Helper lemmas -/

theorem find?_update_first (rid : String) (f : ReviewHistory → ReviewHistory)
    (l : List ReviewHistory) (r : ReviewHistory)
    (hf : (f r).review_id = r.review_id)
    (h : l.find? (fun x => x.review_id == rid) = some r) :
    (update_first rid f l).find? (fun x => x.review_id == rid) = some (f r) := by
  induction l with
  | nil => simp at h
  | cons a l ih =>
    by_cases ha : (a.review_id == rid) = true
    · have har : a = r := by simpa [List.find?_cons_of_pos, ha] using h
      subst har
      rw [update_first, if_pos ha]
      have hfa : ((fun x => x.review_id == rid) (f a)) = true := by
        simpa [hf] using ha
      simp [List.find?_cons_of_pos, hfa]
    · have h' : l.find? (fun x => x.review_id == rid) = some r := by
        simpa [List.find?_cons_of_neg, ha] using h
      rw [update_first, if_neg (by simpa using ha)]
      simpa [List.find?_cons_of_neg, ha] using ih h'

theorem forall₂_update_first (R : ReviewHistory → ReviewHistory → Prop) (rid : String)
    (f : ReviewHistory → ReviewHistory) (l : List ReviewHistory)
    (hrefl : ∀ a, R a a) (hf : ∀ a, R a (f a)) :
    List.Forall₂ R l (update_first rid f l) := by
  induction l with
  | nil => exact List.Forall₂.nil
  | cons a l ih =>
    rw [update_first]
    by_cases ha : (a.review_id == rid) = true
    · rw [if_pos ha]
      exact List.Forall₂.cons (hf a) (List.forall₂_same.2 fun x _ => hrefl x)
    · rw [if_neg (by simpa using ha)]
      exact List.Forall₂.cons (hrefl a) ih

theorem replaceAllAux_of_not_hasSubstr (pat rep : List Char) (fuel : Nat)
    (s : List Char) (h : hasSubstr pat s = false) (hfuel : s.length ≤ fuel) :
    replaceAllAux pat rep fuel s = s := by
  induction fuel generalizing s with
  | zero =>
    cases s with
    | nil => rfl
    | cons c rest => simp at hfuel
  | succ n ih =>
    cases s with
    | nil => rfl
    | cons c rest =>
      rw [hasSubstr, Bool.or_eq_false_iff] at h
      rw [replaceAllAux, if_neg (by simp [h.1]),
        ih rest h.2 (by simpa using Nat.le_of_succ_le_succ hfuel)]

theorem replaceAll_of_not_hasSubstr (pat rep s : List Char)
    (h : hasSubstr pat s = false) : replaceAll pat rep s = s :=
  replaceAllAux_of_not_hasSubstr pat rep s.length s h (Nat.le_refl _)

theorem pyReplace_of_not_hasSubstr (s pat rep : String)
    (h : hasSubstr pat.toList s.toList = false) : pyReplace s pat rep = s := by
  rw [pyReplace, replaceAll_of_not_hasSubstr _ _ _ h]
  cases s
  rfl

theorem provide_feedback_ok (st : Store) (review_id : String) (feedback : Feedback)
    (r : ReviewHistory) (hvalid : validDHI feedback.dhi_scores)
    (hfind : st.reviews.find? (fun x => x.review_id == review_id) = some r) :
    provide_feedback st review_id feedback =
      ({ st with
          reviews := update_first review_id
            (apply_feedback_update feedback (round2
              (((r.review_data.score + feedback.dhi_scores.dignity +
                 feedback.dhi_scores.honesty +
                 feedback.dhi_scores.integrity : ℤ) : ℚ) / 4))) st.reviews },
       .ok (apply_feedback_update feedback (round2
              (((r.review_data.score + feedback.dhi_scores.dignity +
                 feedback.dhi_scores.honesty +
                 feedback.dhi_scores.integrity : ℤ) : ℚ) / 4)) r)) := by
  have hupd := find?_update_first review_id
    (apply_feedback_update feedback (round2
      (((r.review_data.score + feedback.dhi_scores.dignity +
         feedback.dhi_scores.honesty +
         feedback.dhi_scores.integrity : ℤ) : ℚ) / 4)))
    st.reviews r rfl hfind
  unfold provide_feedback
  rw [if_pos hvalid]
  simp only [hfind]
  rw [hupd]

theorem generate_next_task_ok (st : Store) (review_id : String) (r : ReviewHistory)
    (nt : NextTask)
    (hfind : st.reviews.find? (fun x => x.review_id == review_id) = some r)
    (hst : r.status = "feedback_provided") :
    generate_next_task st review_id (some nt) =
      ({ st with reviews := update_first review_id (apply_next_task_update nt) st.reviews },
       .ok (apply_next_task_update nt r)) := by
  have hupd := find?_update_first review_id (apply_next_task_update nt)
    st.reviews r rfl hfind
  unfold generate_next_task
  simp only [hfind]
  rw [if_neg (fun h => h hst)]
  rw [hupd]

/-! ### Claim theorems -/

/-- C1: `run_review` fails with `TaskNotFound` (404) on an unknown `task_id`
and with `ModelInvocationError` (500) when either model call fails, in each
case writing nothing to the review store; the single insert happens only on
a run in which both model calls succeeded. -/
theorem run_review_failure_semantics (st : Store)
    (task_id submission_text username : String) (reviewRes : Option ReviewData)
    (noteRes : Option String) (fresh_id : String) :
    (st.tasks.find? (fun t => t.task_id == task_id) = none →
      run_review_and_note_logic st task_id submission_text username reviewRes noteRes
        fresh_id = (st, .error .taskNotFound)) ∧
    ((st.tasks.find? (fun t => t.task_id == task_id)).isSome →
      (reviewRes = none ∨ noteRes = none) →
      run_review_and_note_logic st task_id submission_text username reviewRes noteRes
        fresh_id = (st, .error .modelInvocationError)) ∧
    (∀ e : AgentError,
      (run_review_and_note_logic st task_id submission_text username reviewRes noteRes
        fresh_id).2 = .error e →
      (run_review_and_note_logic st task_id submission_text username reviewRes noteRes
        fresh_id).1 = st) ∧
    (∀ rec : ReviewHistory,
      (run_review_and_note_logic st task_id submission_text username reviewRes noteRes
        fresh_id).2 = .ok rec →
      (run_review_and_note_logic st task_id submission_text username reviewRes noteRes
        fresh_id).1.reviews = st.reviews ++ [rec] ∧
      reviewRes.isSome ∧ noteRes.isSome) ∧
    AgentError.taskNotFound.statusCode = 404 ∧
    AgentError.modelInvocationError.statusCode = 500 := by
  refine ⟨?_, ?_, ?_, ?_, rfl, rfl⟩
  · intro h
    simp [run_review_and_note_logic, h]
  · intro hsome hor
    obtain ⟨t, hfind⟩ := Option.isSome_iff_exists.mp hsome
    rcases hor with h | h
    · subst h
      simp [run_review_and_note_logic, hfind]
    · subst h
      cases reviewRes <;> simp [run_review_and_note_logic, hfind]
  · intro e he
    cases hfind : st.tasks.find? (fun t => t.task_id == task_id) with
    | none => simp [run_review_and_note_logic, hfind]
    | some t =>
      cases reviewRes with
      | none => simp [run_review_and_note_logic, hfind]
      | some rd =>
        cases noteRes with
        | none => simp [run_review_and_note_logic, hfind]
        | some note => simp [run_review_and_note_logic, hfind] at he
  · intro rec hrec
    cases hfind : st.tasks.find? (fun t => t.task_id == task_id) with
    | none => simp [run_review_and_note_logic, hfind] at hrec
    | some t =>
      cases reviewRes with
      | none => simp [run_review_and_note_logic, hfind] at hrec
      | some rd =>
        cases noteRes with
        | none => simp [run_review_and_note_logic, hfind] at hrec
        | some note =>
          simp only [run_review_and_note_logic, hfind] at hrec ⊢
          simp at hrec
          subst hrec
          simp

/-- C1 witness: on an empty store, a review request for an unknown task
fails with `TaskNotFound` and the store is untouched. -/
theorem run_review_failure_semantics_witness :
    run_review_and_note_logic ⟨[], []⟩ "t1" "code" "alice" none none "rid1" =
      (⟨[], []⟩, .error .taskNotFound) :=
  (run_review_failure_semantics ⟨[], []⟩ "t1" "code" "alice" none none "rid1").1 rfl

/-- C7: on success `run_review` persists exactly one new record whose
`review_id` is the freshly generated id (unique when the generated id is),
`status` is `pending_feedback`, `next_task` is the empty placeholder, the
model outputs populate `review_data` and `feedback_note`, and the feedback
fields are all absent. -/
theorem run_review_success_record (st : Store)
    (task_id submission_text username : String) (rd : ReviewData) (note : String)
    (fresh_id : String) (t : Task)
    (hfind : st.tasks.find? (fun x => x.task_id == task_id) = some t)
    (hfresh : fresh_id ∉ st.reviews.map ReviewHistory.review_id) :
    ∃ rec : ReviewHistory,
      run_review_and_note_logic st task_id submission_text username (some rd)
        (some note) fresh_id = ({ st with reviews := st.reviews ++ [rec] }, .ok rec) ∧
      rec.review_id = fresh_id ∧
      rec.status = "pending_feedback" ∧
      rec.next_task = { title := "", objectives := [], deliverables := "" } ∧
      rec.review_data = rd ∧
      rec.feedback_note = note ∧
      rec.feedback_sentiment = none ∧
      rec.dhi_scores = none ∧
      rec.overall_score = none ∧
      rec.username = username ∧
      rec.task_id = task_id ∧
      ∀ r ∈ st.reviews, r.review_id ≠ rec.review_id := by
  refine ⟨{ review_id := fresh_id, username := username, task_id := task_id,
            review_data := rd, feedback_note := note,
            next_task := { title := "", objectives := [], deliverables := "" },
            feedback_sentiment := none, dhi_scores := none, overall_score := none,
            status := "pending_feedback" },
          ?_, rfl, rfl, rfl, rfl, rfl, rfl, rfl, rfl, rfl, rfl, ?_⟩
  · simp [run_review_and_note_logic, hfind]
  · intro r hr heq
    apply hfresh
    have hre : r.review_id = fresh_id := heq
    exact hre ▸ List.mem_map_of_mem ReviewHistory.review_id hr

/-- C7 witness: a concrete successful run on a one-task store. -/
theorem run_review_success_record_witness :
    ∃ rec : ReviewHistory,
      run_review_and_note_logic ⟨[⟨"t1", "T", "D"⟩], []⟩ "t1" "code" "alice"
        (some ⟨"t1", 7, [], [], "s", none, none⟩) (some "note") "rid1" =
        ({ tasks := [⟨"t1", "T", "D"⟩],
           reviews := ([] : List ReviewHistory) ++ [rec] }, .ok rec) ∧
      rec.review_id = "rid1" ∧
      rec.status = "pending_feedback" ∧
      rec.next_task = { title := "", objectives := [], deliverables := "" } ∧
      rec.review_data = ⟨"t1", 7, [], [], "s", none, none⟩ ∧
      rec.feedback_note = "note" ∧
      rec.feedback_sentiment = none ∧
      rec.dhi_scores = none ∧
      rec.overall_score = none ∧
      rec.username = "alice" ∧
      rec.task_id = "t1" ∧
      ∀ r ∈ ([] : List ReviewHistory), r.review_id ≠ rec.review_id :=
  run_review_success_record ⟨[⟨"t1", "T", "D"⟩], []⟩ "t1" "code" "alice"
    ⟨"t1", 7, [], [], "s", none, none⟩ "note" "rid1" ⟨"t1", "T", "D"⟩ rfl (by simp)

/-- C2: `run_next_task` fails with `ReviewNotFound` for an absent
`review_id`; it fails closed with `LockedError` (423), leaving the store
unchanged, for any stored record whose status is not `feedback_provided`;
and for a record with status `feedback_provided` (once the next-task model
call returns) it stores the generated `next_task` and returns the refreshed
record. -/
theorem generate_next_task_guard (st : Store) (review_id : String)
    (nextTaskRes : Option NextTask) :
    (st.reviews.find? (fun r => r.review_id == review_id) = none →
      generate_next_task st review_id nextTaskRes = (st, .error .reviewNotFound)) ∧
    (∀ r : ReviewHistory,
      st.reviews.find? (fun x => x.review_id == review_id) = some r →
      r.status ≠ "feedback_provided" →
      generate_next_task st review_id nextTaskRes = (st, .error .lockedError)) ∧
    (∀ (r : ReviewHistory) (nt : NextTask),
      st.reviews.find? (fun x => x.review_id == review_id) = some r →
      r.status = "feedback_provided" → nextTaskRes = some nt →
      generate_next_task st review_id nextTaskRes =
        ({ st with
            reviews := update_first review_id (apply_next_task_update nt) st.reviews },
         .ok { r with next_task := nt })) ∧
    AgentError.lockedError.statusCode = 423 ∧
    AgentError.reviewNotFound.statusCode = 404 := by
  refine ⟨?_, ?_, ?_, rfl, rfl⟩
  · intro h
    simp [generate_next_task, h]
  · intro r hfind hst
    simp [generate_next_task, hfind, hst]
  · intro r nt hfind hst hres
    subst hres
    exact generate_next_task_ok st review_id r nt hfind hst

/-- C2 witness: a record with status `feedback_provided` passes the guard
and receives the generated next task. -/
theorem generate_next_task_guard_witness :
    generate_next_task sampleStoreF "r1" (some sampleNextTask) =
      ({ sampleStoreF with
          reviews := update_first "r1" (apply_next_task_update sampleNextTask) sampleStoreF.reviews },
       .ok { sampleProvided with next_task := sampleNextTask }) :=
  (generate_next_task_guard sampleStoreF "r1" (some sampleNextTask)).2.2.1
    sampleProvided sampleNextTask rfl rfl rfl

/-- C3: `record_feedback` stores (and returns) `overall_score` equal to the
unweighted arithmetic mean of the stored model score and the three supplied
DHI scores, rounded to two decimals; on a score-7 record with DHI scores
8, 9, 10 that mean is 8.5. -/
theorem provide_feedback_overall_score :
    (∀ (st : Store) (review_id : String) (feedback : Feedback) (r : ReviewHistory),
      validDHI feedback.dhi_scores →
      st.reviews.find? (fun x => x.review_id == review_id) = some r →
      ∃ rec : ReviewHistory,
        (provide_feedback st review_id feedback).2 = .ok rec ∧
        rec.overall_score = some (round2
          (((r.review_data.score + feedback.dhi_scores.dignity +
             feedback.dhi_scores.honesty + feedback.dhi_scores.integrity : ℤ) : ℚ) / 4))) ∧
    round2 (((7 + 8 + 9 + 10 : ℤ) : ℚ) / 4) = 8.5 := by
  constructor
  · intro st review_id feedback r hvalid hfind
    refine ⟨apply_feedback_update feedback (round2
        (((r.review_data.score + feedback.dhi_scores.dignity +
           feedback.dhi_scores.honesty +
           feedback.dhi_scores.integrity : ℤ) : ℚ) / 4)) r, ?_, rfl⟩
    rw [provide_feedback_ok st review_id feedback r hvalid hfind]
  · norm_num [round2, round_eq]

/-- C3 witness: feedback 8, 9, 10 on a stored record whose model score is 7
(by the second conjunct of the theorem that mean is exactly 8.5). -/
theorem provide_feedback_overall_score_witness :
    validDHI sampleFeedback.dhi_scores ∧
    ∃ rec : ReviewHistory,
      (provide_feedback sampleStoreP "r1" sampleFeedback).2 = .ok rec ∧
      rec.overall_score = some (round2
        (((samplePending.review_data.score + sampleFeedback.dhi_scores.dignity +
           sampleFeedback.dhi_scores.honesty +
           sampleFeedback.dhi_scores.integrity : ℤ) : ℚ) / 4)) :=
  ⟨by decide,
   provide_feedback_overall_score.1 sampleStoreP "r1" sampleFeedback samplePending
     (by decide) rfl⟩

/-- C8: `record_feedback` rejects DHI scores outside 1..10 with a
validation (client) error raised at the request boundary, and the store —
in particular every field of every stored review record — is unchanged. -/
theorem provide_feedback_validation (st : Store) (review_id : String)
    (feedback : Feedback) (h : ¬ validDHI feedback.dhi_scores) :
    provide_feedback st review_id feedback = (st, .error .validationError) ∧
    AgentError.validationError.statusCode = 422 :=
  ⟨by simp [provide_feedback, h], rfl⟩

/-- C8 witness: a dignity score of 0 is rejected and the store keeps its
record untouched. -/
theorem provide_feedback_validation_witness :
    provide_feedback sampleStoreP "r1" ⟨"up", ⟨0, 5, 5⟩⟩ =
      (sampleStoreP, .error .validationError) ∧
    AgentError.validationError.statusCode = 422 :=
  provide_feedback_validation sampleStoreP "r1" ⟨"up", ⟨0, 5, 5⟩⟩ (by decide)

/-- C4 counterexample: a link whose host is `gitlab.com` — not the
web-hosting-UI domain `github.com` — is NOT passed to the fetch unchanged:
the unconditional `.replace("/blob/", "/")` rewrites it. -/
theorem resolve_link_counterexample :
    resolve_link "https://gitlab.com/u/r/blob/main/f.py" =
      "https://gitlab.com/u/r/main/f.py" ∧
    "https://gitlab.com/u/r/main/f.py" ≠ "https://gitlab.com/u/r/blob/main/f.py" := by
  exact ⟨by decide, by decide⟩

/-- C4 (amended): the resolver applies the two substring substitutions of
line 236 to every link unconditionally — any occurrence of `github.com`
becomes `raw.githubusercontent.com` and any `/blob/` becomes `/`; a link
containing neither substring passes through unchanged, and the recorded
GitHub example rewrites exactly as the spec requires. -/
theorem resolve_link_substitution :
    (∀ link : String,
      hasSubstr "github.com".toList link.toList = false →
      hasSubstr "/blob/".toList link.toList = false →
      resolve_link link = link) ∧
    resolve_link "https://github.com/u/r/blob/main/f.py" =
      "https://raw.githubusercontent.com/u/r/main/f.py" := by
  constructor
  · intro link h1 h2
    rw [resolve_link, pyReplace_of_not_hasSubstr _ _ _ h1,
      pyReplace_of_not_hasSubstr _ _ _ h2]
  · decide

/-- C4 witness: a direct content URL containing neither substring is passed
to the fetch completely unchanged. -/
theorem resolve_link_substitution_witness :
    hasSubstr "github.com".toList "https://example.com/f.py".toList = false ∧
    hasSubstr "/blob/".toList "https://example.com/f.py".toList = false ∧
    resolve_link "https://example.com/f.py" = "https://example.com/f.py" :=
  ⟨by decide, by decide,
   resolve_link_substitution.1 "https://example.com/f.py" (by decide) (by decide)⟩

/-- C5: `record_feedback` is idempotent in its status effect — after a first
successful call has set `status = feedback_provided`, a second call with any
valid feedback does not fail: it overwrites `feedback_sentiment`,
`dhi_scores` and `overall_score` with the newly supplied values and leaves
`status = feedback_provided` (and `review_id` unchanged). -/
theorem provide_feedback_idempotent_status (st : Store) (review_id : String)
    (fb1 fb2 : Feedback) (r : ReviewHistory)
    (h1 : validDHI fb1.dhi_scores) (h2 : validDHI fb2.dhi_scores)
    (hfind : st.reviews.find? (fun x => x.review_id == review_id) = some r) :
    ∃ (st1 : Store) (rec1 rec2 : ReviewHistory),
      provide_feedback st review_id fb1 = (st1, .ok rec1) ∧
      rec1.status = "feedback_provided" ∧
      (provide_feedback st1 review_id fb2).2 = .ok rec2 ∧
      rec2.status = "feedback_provided" ∧
      rec2.feedback_sentiment = some fb2.sentiment ∧
      rec2.dhi_scores = some fb2.dhi_scores ∧
      rec2.overall_score = some (round2
        (((r.review_data.score + fb2.dhi_scores.dignity + fb2.dhi_scores.honesty +
           fb2.dhi_scores.integrity : ℤ) : ℚ) / 4)) ∧
      rec2.review_id = r.review_id := by
  refine ⟨_, _,
    apply_feedback_update fb2 (round2
      (((r.review_data.score + fb2.dhi_scores.dignity + fb2.dhi_scores.honesty +
         fb2.dhi_scores.integrity : ℤ) : ℚ) / 4))
      (apply_feedback_update fb1 (round2
        (((r.review_data.score + fb1.dhi_scores.dignity + fb1.dhi_scores.honesty +
           fb1.dhi_scores.integrity : ℤ) : ℚ) / 4)) r),
    provide_feedback_ok st review_id fb1 r h1 hfind, rfl, ?_, rfl, rfl, rfl, rfl, rfl⟩
  have hfind1 := find?_update_first review_id
    (apply_feedback_update fb1 (round2
      (((r.review_data.score + fb1.dhi_scores.dignity + fb1.dhi_scores.honesty +
         fb1.dhi_scores.integrity : ℤ) : ℚ) / 4)))
    st.reviews r rfl hfind
  have h2eq := provide_feedback_ok
    { st with
      reviews := update_first review_id
        (apply_feedback_update fb1 (round2
          (((r.review_data.score + fb1.dhi_scores.dignity + fb1.dhi_scores.honesty +
             fb1.dhi_scores.integrity : ℤ) : ℚ) / 4))) st.reviews }
    review_id fb2
    (apply_feedback_update fb1 (round2
      (((r.review_data.score + fb1.dhi_scores.dignity + fb1.dhi_scores.honesty +
         fb1.dhi_scores.integrity : ℤ) : ℚ) / 4)) r)
    h2 hfind1
  exact congrArg Prod.snd h2eq

/-- C5 witness: two feedback calls in a row on a concrete pending record;
the second succeeds and keeps `status = feedback_provided`. -/
theorem provide_feedback_idempotent_status_witness :
    ∃ (st1 : Store) (rec1 rec2 : ReviewHistory),
      provide_feedback sampleStoreP "r1" sampleFeedback = (st1, .ok rec1) ∧
      rec1.status = "feedback_provided" ∧
      (provide_feedback st1 "r1" sampleFeedback).2 = .ok rec2 ∧
      rec2.status = "feedback_provided" ∧
      rec2.feedback_sentiment = some sampleFeedback.sentiment ∧
      rec2.dhi_scores = some sampleFeedback.dhi_scores ∧
      rec2.overall_score = some (round2
        (((samplePending.review_data.score + sampleFeedback.dhi_scores.dignity +
           sampleFeedback.dhi_scores.honesty +
           sampleFeedback.dhi_scores.integrity : ℤ) : ℚ) / 4)) ∧
      rec2.review_id = samplePending.review_id :=
  provide_feedback_idempotent_status sampleStoreP "r1" sampleFeedback sampleFeedback
    samplePending (by decide) (by decide) rfl

/-- C6: `review_id` is never mutated and `status` never regresses —
`run_review` only appends (existing records are untouched), `record_feedback`
keeps every record's `review_id` and can only move a record's status to
`feedback_provided` (a `feedback_provided` record stays `feedback_provided`),
and `run_next_task` keeps both `review_id` and `status` of every record. -/
theorem review_record_invariants (st : Store)
    (task_id submission_text username review_id fresh_id : String)
    (reviewRes : Option ReviewData) (noteRes : Option String)
    (feedback : Feedback) (nextTaskRes : Option NextTask) :
    (∃ tail : List ReviewHistory,
      (run_review_and_note_logic st task_id submission_text username reviewRes noteRes
        fresh_id).1.reviews = st.reviews ++ tail) ∧
    List.Forall₂ (fun a b => a.review_id = b.review_id ∧
        (a.status = "feedback_provided" → b.status = "feedback_provided"))
      st.reviews (provide_feedback st review_id feedback).1.reviews ∧
    List.Forall₂ (fun a b => a.review_id = b.review_id ∧ a.status = b.status)
      st.reviews (generate_next_task st review_id nextTaskRes).1.reviews := by
  refine ⟨?_, ?_, ?_⟩
  · cases hfind : st.tasks.find? (fun t => t.task_id == task_id) with
    | none => exact ⟨[], by simp [run_review_and_note_logic, hfind]⟩
    | some t =>
      cases reviewRes with
      | none => exact ⟨[], by simp [run_review_and_note_logic, hfind]⟩
      | some rd =>
        cases noteRes with
        | none => exact ⟨[], by simp [run_review_and_note_logic, hfind]⟩
        | some note =>
          exact ⟨[{ review_id := fresh_id
                    username := username
                    task_id := task_id
                    review_data := rd
                    feedback_note := note
                    next_task := { title := "", objectives := [], deliverables := "" }
                    feedback_sentiment := none
                    dhi_scores := none
                    overall_score := none
                    status := "pending_feedback" }],
            by simp [run_review_and_note_logic, hfind]⟩
  · by_cases hv : validDHI feedback.dhi_scores
    · cases hfind : st.reviews.find? (fun x => x.review_id == review_id) with
      | none =>
        have heq : provide_feedback st review_id feedback =
            (st, .error .reviewNotFound) := by
          simp [provide_feedback, hv, hfind]
        rw [heq]
        exact List.forall₂_same.2 fun x _ => ⟨rfl, id⟩
      | some r =>
        rw [provide_feedback_ok st review_id feedback r hv hfind]
        exact forall₂_update_first _ review_id _ st.reviews
          (fun a => ⟨rfl, id⟩) (fun a => ⟨rfl, fun _ => rfl⟩)
    · have heq : provide_feedback st review_id feedback =
          (st, .error .validationError) := by
        simp [provide_feedback, hv]
      rw [heq]
      exact List.forall₂_same.2 fun x _ => ⟨rfl, id⟩
  · cases hfind : st.reviews.find? (fun x => x.review_id == review_id) with
    | none =>
      have heq : generate_next_task st review_id nextTaskRes =
          (st, .error .reviewNotFound) := by
        simp [generate_next_task, hfind]
      rw [heq]
      exact List.forall₂_same.2 fun x _ => ⟨rfl, rfl⟩
    | some r =>
      by_cases hst : r.status = "feedback_provided"
      · cases nextTaskRes with
        | none =>
          have heq : generate_next_task st review_id none =
              (st, .error .modelInvocationError) := by
            simp [generate_next_task, hfind, hst]
          rw [heq]
          exact List.forall₂_same.2 fun x _ => ⟨rfl, rfl⟩
        | some nt =>
          rw [generate_next_task_ok st review_id r nt hfind hst]
          exact forall₂_update_first _ review_id _ st.reviews
            (fun a => ⟨rfl, rfl⟩) (fun a => ⟨rfl, rfl⟩)
      · have heq : generate_next_task st review_id nextTaskRes =
            (st, .error .lockedError) := by
          simp [generate_next_task, hfind, hst]
        rw [heq]
        exact List.forall₂_same.2 fun x _ => ⟨rfl, rfl⟩

/-- C6 witness: the invariants instantiated on a concrete store and
concrete operations. -/
theorem review_record_invariants_witness :
    (∃ tail : List ReviewHistory,
      (run_review_and_note_logic sampleStoreF "t1" "code" "alice"
        (some sampleReviewData) (some "note") "rid2").1.reviews =
        sampleStoreF.reviews ++ tail) ∧
    List.Forall₂ (fun a b => a.review_id = b.review_id ∧
        (a.status = "feedback_provided" → b.status = "feedback_provided"))
      sampleStoreF.reviews
      (provide_feedback sampleStoreF "r1" sampleFeedback).1.reviews ∧
    List.Forall₂ (fun a b => a.review_id = b.review_id ∧ a.status = b.status)
      sampleStoreF.reviews
      (generate_next_task sampleStoreF "r1" (some sampleNextTask)).1.reviews :=
  review_record_invariants sampleStoreF "t1" "code" "alice" "r1" "rid2"
    (some sampleReviewData) (some "note") sampleFeedback (some sampleNextTask)

/-- C9: a file submission whose bytes are not valid UTF-8 fails with
`DecodeError` (400) no matter what the model calls would return — the
failure precedes task lookup and both model calls — and the store is
unchanged, so no review record is stored. -/
theorem full_review_workflow_file_decode_error (st : Store)
    (task_id username : String) (content_bytes : List Nat)
    (reviewRes : Option ReviewData) (noteRes : Option String) (fresh_id : String)
    (h : utf8DecodeString content_bytes = none) :
    full_review_workflow_file st task_id username content_bytes reviewRes noteRes
      fresh_id = (st, .error .decodeError) ∧
    AgentError.decodeError.statusCode = 400 :=
  ⟨by simp [full_review_workflow_file, h], rfl⟩

/-- C9 witness: the single byte `0xFF` is not valid UTF-8; the submission is
rejected with `DecodeError` and the store keeps only its existing record. -/
theorem full_review_workflow_file_decode_error_witness :
    full_review_workflow_file sampleStoreP "t1" "alice" [0xFF]
      (some sampleReviewData) (some "note") "rid2" =
      (sampleStoreP, .error .decodeError) ∧
    AgentError.decodeError.statusCode = 400 :=
  full_review_workflow_file_decode_error sampleStoreP "t1" "alice" [0xFF]
    (some sampleReviewData) (some "note") "rid2" rfl

/-- C10: `create_task` rejects a `task_id` that is already present with a
400-equivalent client error and leaves the task store unchanged, and it
preserves uniqueness of `task_id` in the store, so at most one task per
`task_id` ever exists. -/
theorem create_task_unique (st : Store) (task : Task) :
    (∀ t : Task, st.tasks.find? (fun x => x.task_id == task.task_id) = some t →
      create_task st task = (st, .error .duplicateTask)) ∧
    ((st.tasks.map Task.task_id).Nodup →
      (((create_task st task).1).tasks.map Task.task_id).Nodup) ∧
    AgentError.duplicateTask.statusCode = 400 := by
  refine ⟨?_, ?_, rfl⟩
  · intro t hfind
    simp [create_task, hfind]
  · intro hnodup
    cases hfind : st.tasks.find? (fun x => x.task_id == task.task_id) with
    | some t => simpa [create_task, hfind] using hnodup
    | none =>
      have hnotin : task.task_id ∉ st.tasks.map Task.task_id := by
        rw [List.find?_eq_none] at hfind
        intro hmem
        obtain ⟨x, hx, hxeq⟩ := List.mem_map.mp hmem
        exact hfind x hx (by simp [hxeq])
      simp only [create_task, hfind]
      simp [List.nodup_append, hnodup, hnotin]

/-- C10 witness: re-creating task `t1` on a store already holding it fails
with the 400 duplicate error and the store is unchanged. -/
theorem create_task_unique_witness :
    create_task sampleStoreP sampleTask = (sampleStoreP, .error .duplicateTask) :=
  (create_task_unique sampleStoreP sampleTask).1 sampleTask rfl

end TaskReviewer
